import Mathlib

/-!
# Verification of mariadbpp `connection.cpp` (class `mariadb::connection`)

Shallow embedding of `src/connection.cpp`.  The native client library
(`mysql_*` calls) is modelled by an oracle environment `Env` of responses;
the connection's member fields are an explicit `ConnState`, and every
operation returns its result value, the new state, and a log of the native
calls and error reports it performed.  The re-entry cycle
`connect → set_auto_commit / set_schema / execute → connect` is modelled with
a fuel parameter; exhausted fuel yields `none`.

The error macros `MYSQL_ERROR_NO_BRAKET` / `MYSQL_ERROR_RETURN_FALSE` /
`MARIADB_ERROR` live in `private.hpp`, which is not part of the fragment.
Modelled from the spec: they report the native error (logged here as
`Event.errReported`) and, for the `RETURN_FALSE` variant, return `false`
without disconnecting — the spec describes `set_schema` failure as returning
false "without disconnecting", and `connection.cpp` itself defines the
separate `MYSQL_ERROR_DISCONNECT` macro that additionally calls
`disconnect()`, confirming the plain variant does not.
-/

namespace Mariadb

/-- State of a native `MYSQL*` handle: `raw` means `mysql_init` succeeded but
no handshake has completed on it (`mysql_stat` yields NULL on such a handle);
`established` means `mysql_real_connect` completed on it. -/
inductive HandleState
  | raw
  | established
deriving DecidableEq, Repr

/-- The member fields of `mariadb::connection` that `connection.cpp` uses. -/
structure ConnState where
  m_mysql : Option HandleState
  m_schema : String
  m_charset : String
  m_auto_commit : Bool
deriving DecidableEq, Repr

/-- `connection::connection`: `m_auto_commit(true)`, `m_mysql(NULL)`. -/
def initConn : ConnState := ⟨none, "", "", true⟩

/-- One pending result inside the multi-statement loop of
`connection::execute`, as classified by the code's three-way branch. -/
inductive PendingResult
  | resultSet
  | okPacket (affected : Nat)
  | storeError
deriving DecidableEq, Repr

/-- Native response to one `mysql_real_query` submission: whether the call
itself succeeded, and the sequence of pending results paired with the
`mysql_next_result` status returned after each one. -/
structure QueryResp where
  ok : Bool
  results : List (PendingResult × Int)
deriving DecidableEq, Repr

/-- Native calls and error reports, logged in program order. -/
inductive Event
  | callInit
  | callSslSet
  | callRealConnect
  | callStat
  | callAutocommit (flag : Bool)
  | callSelectDb (db : String)
  | callSetCharset (cs : String)
  | callRealQuery (q : String)
  | callClose
  | errReported
deriving DecidableEq, Repr

/-- The read-only account/credentials descriptor, as consumed by
`connection.cpp` (`m_account->...`). -/
structure Account where
  ssl_key : String
  ssl_certificate : String
  ssl_ca : String
  ssl_ca_path : String
  ssl_cipher : String
  host_name : String
  user_name : String
  password : String
  unix_socket : String
  port : Nat
  auto_commit : Bool
  schema : String
  options : List (String × String)
deriving DecidableEq, Repr

/-- Oracle for the native client library's responses. -/
structure Env where
  init_ok : Bool
  ssl_ok : Bool
  connect_ok : Bool
  stat_live : Bool
  autocommit_ok : Bool → Bool
  select_db_ok : String → Bool
  set_charset_ok : String → Bool
  query : String → QueryResp
  insert_id : String → Nat

/-- Result of one operation: return value, resulting member state, and the
log of native calls / error reports performed. -/
structure Res (α : Type) where
  val : α
  st : ConnState
  log : List Event
deriving DecidableEq, Repr

/-- `connection::connected`: `m_mysql` non-NULL and `mysql_stat(m_mysql)`
non-NULL.  `mysql_stat` on a handle without a completed handshake fails and
returns NULL; on an established handle it is the oracle's `stat_live`. -/
def connected (env : Env) (st : ConnState) : Bool :=
  match st.m_mysql with
  | none => false
  | some HandleState.raw => false
  | some HandleState.established => env.stat_live

/-- Log of the `mysql_stat` probe that `connected()` performs (only issued
when `m_mysql` is non-NULL). -/
def statProbeLog (st : ConnState) : List Event :=
  match st.m_mysql with
  | none => []
  | some _ => [Event.callStat]

/-- `connection::disconnect`: no-op when `m_mysql` is NULL; otherwise
`mysql_close` + `mysql_thread_end` and clear the handle.  The cached
schema/charset/autocommit fields are not touched. -/
def disconnectOp (st : ConnState) : ConnState × List Event :=
  match st.m_mysql with
  | none => (st, [])
  | some _ => ({ st with m_mysql := none }, [Event.callClose])

def disconnect (st : ConnState) : ConnState := (disconnectOp st).1

/-- `u64` addition: `affected_rows` is a `u64` accumulator in the source. -/
def u64add (a b : Nat) : Nat := (a + b) % 2 ^ 64

/-- How the do/while loop of `connection::execute` ended. -/
inductive ExitKind
  | normal
  | storeErr
  | statusErr
  | exhausted
deriving DecidableEq, Repr

/-- The do/while result loop of `connection::execute`: for each pending
result, a buffered result set is freed and discarded, a zero-field result
adds its affected-row count, and a NULL store with nonzero field count is an
error returning the accumulated count; then `mysql_next_result` status `> 0`
is an error, `0` continues, negative ends the loop. -/
def execLoop : List (PendingResult × Int) → Nat → Nat × ExitKind
  | [], acc => (acc, ExitKind.exhausted)
  | (r, status) :: rest, acc =>
    match r with
    | PendingResult.storeError => (acc, ExitKind.storeErr)
    | PendingResult.resultSet =>
      if status > 0 then (acc, ExitKind.statusErr)
      else if status = 0 then execLoop rest acc
      else (acc, ExitKind.normal)
    | PendingResult.okPacket n =>
      if status > 0 then (u64add acc n, ExitKind.statusErr)
      else if status = 0 then execLoop rest (u64add acc n)
      else (u64add acc n, ExitKind.normal)

/-- `connection::set_auto_commit`, with the ensure-connected call abstracted
as `c`: cache hit returns true with no native call; otherwise connect, issue
`mysql_autocommit`, update the cache on success, report and return false on
failure (no disconnect). -/
def set_auto_commitW (c : ConnState → Option (Res Bool)) (env : Env) (flag : Bool)
    (st : ConnState) : Option (Res Bool) :=
  if st.m_auto_commit = flag then
    some ⟨true, st, []⟩
  else
    match c st with
    | none => none
    | some r =>
      if r.val then
        if env.autocommit_ok flag then
          some ⟨true, { r.st with m_auto_commit := flag }, r.log ++ [Event.callAutocommit flag]⟩
        else
          some ⟨false, r.st, r.log ++ [Event.callAutocommit flag, Event.errReported]⟩
      else
        some ⟨false, r.st, r.log⟩

/-- `connection::set_schema` with the ensure-connected call abstracted as
`c`: connect, issue `mysql_select_db`, update the cached schema on success;
on failure report and return false without disconnecting. -/
def set_schemaW (c : ConnState → Option (Res Bool)) (env : Env) (name : String)
    (st : ConnState) : Option (Res Bool) :=
  match c st with
  | none => none
  | some r =>
    if r.val then
      if env.select_db_ok name then
        some ⟨true, { r.st with m_schema := name }, r.log ++ [Event.callSelectDb name]⟩
      else
        some ⟨false, r.st, r.log ++ [Event.callSelectDb name, Event.errReported]⟩
    else
      some ⟨false, r.st, r.log⟩

/-- `connection::set_charset` with the ensure-connected call abstracted. -/
def set_charsetW (c : ConnState → Option (Res Bool)) (env : Env) (value : String)
    (st : ConnState) : Option (Res Bool) :=
  match c st with
  | none => none
  | some r =>
    if r.val then
      if env.set_charset_ok value then
        some ⟨true, { r.st with m_charset := value }, r.log ++ [Event.callSetCharset value]⟩
      else
        some ⟨false, r.st, r.log ++ [Event.callSetCharset value, Event.errReported]⟩
    else
      some ⟨false, r.st, r.log⟩

/-- `connection::execute` with the ensure-connected call abstracted as `c`:
connect, `mysql_real_query`, then the multi-result loop `execLoop`. -/
def executeW (c : ConnState → Option (Res Bool)) (env : Env) (q : String)
    (st : ConnState) : Option (Res Nat) :=
  match c st with
  | none => none
  | some r =>
    if r.val then
      let resp := env.query q
      let log := r.log ++ [Event.callRealQuery q]
      if resp.ok then
        match execLoop resp.results 0 with
        | (n, ExitKind.storeErr) => some ⟨n, r.st, log ++ [Event.errReported]⟩
        | (n, ExitKind.statusErr) => some ⟨n, r.st, log ++ [Event.errReported]⟩
        | (n, _) => some ⟨n, r.st, log⟩
      else
        some ⟨0, r.st, log ++ [Event.errReported]⟩
    else
      some ⟨0, r.st, r.log⟩

/-- `connection::query` with the ensure-connected call abstracted as `c`.
The value is whether a fresh result set was produced (the `result_set`
object itself is outside this fragment). -/
def queryW (c : ConnState → Option (Res Bool)) (env : Env) (q : String)
    (st : ConnState) : Option (Res Bool) :=
  match c st with
  | none => none
  | some r =>
    if r.val then
      if (env.query q).ok then
        some ⟨true, r.st, r.log ++ [Event.callRealQuery q]⟩
      else
        some ⟨false, r.st, r.log ++ [Event.callRealQuery q, Event.errReported]⟩
    else
      some ⟨false, r.st, r.log⟩

/-- `connection::insert` with the ensure-connected call abstracted as `c`:
connect, `mysql_real_query` (report + return 0 on failure), then
`mysql_insert_id`. -/
def insertW (c : ConnState → Option (Res Bool)) (env : Env) (q : String)
    (st : ConnState) : Option (Res Nat) :=
  match c st with
  | none => none
  | some r =>
    if r.val then
      if (env.query q).ok then
        some ⟨env.insert_id q, r.st, r.log ++ [Event.callRealQuery q]⟩
      else
        some ⟨0, r.st, r.log ++ [Event.callRealQuery q, Event.errReported]⟩
    else
      some ⟨0, r.st, r.log⟩

/-- The `SET OPTION <name>=<value>` text built in `connection::connect`. -/
def optQ (p : String × String) : String := "SET OPTION " ++ p.1 ++ "=" ++ p.2

/-- The session-option loop of `connection::connect`: each option is applied
through `execute`, requiring exactly one affected row; any other outcome
reports the error, disconnects and returns false. -/
def setOptionsW (c : ConnState → Option (Res Bool)) (env : Env) :
    List (String × String) → ConnState → Option (Res Bool)
  | [], st => some ⟨true, st, []⟩
  | p :: rest, st =>
    match executeW c env (optQ p) st with
    | none => none
    | some r =>
      if r.val = 1 then
        match setOptionsW c env rest r.st with
        | none => none
        | some r2 => some ⟨r2.val, r2.st, r.log ++ r2.log⟩
      else
        let dc := disconnectOp r.st
        some ⟨false, dc.1, r.log ++ [Event.errReported] ++ dc.2⟩

/-- The slow path of `connection::connect` (everything after the
`connected()` fast-path check), with the nested ensure-connected calls of
`set_auto_commit` / `set_schema` / `execute` abstracted as `c`:
`mysql_init`, optional `mysql_ssl_set` (only when the account's TLS key is
nonempty), `mysql_real_connect`, then autocommit, default schema, and the
session options; autocommit/schema/option failures additionally
disconnect (`MYSQL_ERROR_DISCONNECT`), the earlier failures do not. -/
def connectBody (c : ConnState → Option (Res Bool)) (env : Env) (acct : Account)
    (st : ConnState) : Option (Res Bool) :=
  if env.init_ok = false then
    some ⟨false, { st with m_mysql := none }, [Event.callInit, Event.errReported]⟩
  else
    let st1 : ConnState := { st with m_mysql := some HandleState.raw }
    if acct.ssl_key ≠ "" ∧ env.ssl_ok = false then
      some ⟨false, st1, [Event.callInit, Event.callSslSet, Event.errReported]⟩
    else
      let sslLog : List Event := if acct.ssl_key = "" then [] else [Event.callSslSet]
      if env.connect_ok = false then
        some ⟨false, st1, [Event.callInit] ++ sslLog ++ [Event.callRealConnect, Event.errReported]⟩
      else
        let st2 : ConnState := { st1 with m_mysql := some HandleState.established }
        let log0 : List Event := [Event.callInit] ++ sslLog ++ [Event.callRealConnect]
        match set_auto_commitW c env acct.auto_commit st2 with
        | none => none
        | some r1 =>
          if r1.val = false then
            let dc := disconnectOp r1.st
            some ⟨false, dc.1, log0 ++ r1.log ++ [Event.errReported] ++ dc.2⟩
          else
            match (if acct.schema = "" then some ⟨true, r1.st, []⟩
                   else set_schemaW c env acct.schema r1.st) with
            | none => none
            | some r2 =>
              if r2.val = false then
                let dc := disconnectOp r2.st
                some ⟨false, dc.1, log0 ++ r1.log ++ r2.log ++ [Event.errReported] ++ dc.2⟩
              else
                match setOptionsW c env acct.options r2.st with
                | none => none
                | some r3 =>
                  some ⟨r3.val, r3.st, log0 ++ r1.log ++ r2.log ++ r3.log⟩

/-- `connection::connect`: fast path `if (connected()) return true;`, else
the slow path, with the nested re-entrant `connect()` calls given one less
unit of fuel; fuel 0 still allows the fast path but refuses to re-enter the
slow path (`none` = unbounded recursion in the source). -/
def connect : Nat → Env → Account → ConnState → Option (Res Bool)
  | 0, env, _, st =>
    if connected env st then some ⟨true, st, statProbeLog st⟩ else none
  | fuel + 1, env, acct, st =>
    if connected env st then some ⟨true, st, statProbeLog st⟩
    else
      match connectBody (connect fuel env acct) env acct st with
      | none => none
      | some r => some ⟨r.val, r.st, statProbeLog st ++ r.log⟩

/-- Public `connection::set_auto_commit`. -/
def set_auto_commit (fuel : Nat) (env : Env) (acct : Account) (flag : Bool)
    (st : ConnState) : Option (Res Bool) :=
  set_auto_commitW (connect fuel env acct) env flag st

/-- Public `connection::set_schema`. -/
def set_schema (fuel : Nat) (env : Env) (acct : Account) (name : String)
    (st : ConnState) : Option (Res Bool) :=
  set_schemaW (connect fuel env acct) env name st

/-- Public `connection::set_charset`. -/
def set_charset (fuel : Nat) (env : Env) (acct : Account) (value : String)
    (st : ConnState) : Option (Res Bool) :=
  set_charsetW (connect fuel env acct) env value st

/-- Public `connection::execute`. -/
def execute (fuel : Nat) (env : Env) (acct : Account) (q : String)
    (st : ConnState) : Option (Res Nat) :=
  executeW (connect fuel env acct) env q st

/-- Public `connection::query`. -/
def query (fuel : Nat) (env : Env) (acct : Account) (q : String)
    (st : ConnState) : Option (Res Bool) :=
  queryW (connect fuel env acct) env q st

/-- Public `connection::insert`. -/
def insert (fuel : Nat) (env : Env) (acct : Account) (q : String)
    (st : ConnState) : Option (Res Nat) :=
  insertW (connect fuel env acct) env q st

/-- Left fold of the `u64` affected-row accumulation performed by the
execute loop over a result trace (result-set entries contribute nothing). -/
def foldAff (acc : Nat) : List (PendingResult × Int) → Nat
  | [] => acc
  | (PendingResult.okPacket n, _) :: rest => foldAff (u64add acc n) rest
  | (_, _) :: rest => foldAff acc rest

/-- Cumulative affected-row count of a result trace. -/
def sumAffected (t : List (PendingResult × Int)) : Nat := foldAff 0 t

/-- A well-formed multi-statement result trace: one result per statement
(never a failed store), advance status `0` between statements and a negative
status after the last one. -/
def wellFormedTrace : List (PendingResult × Int) → Bool
  | [] => false
  | (PendingResult.storeError, _) :: _ => false
  | [(_, s)] => decide (s < 0)
  | (_, s) :: rest => s == 0 && wellFormedTrace rest

/-- A trace entry the execute loop passes through and continues after:
a successfully stored (or zero-field) result followed by advance status 0. -/
def cleanStep : PendingResult × Int → Bool
  | (PendingResult.storeError, _) => false
  | (_, s) => s == 0

/-- A prefix of trace entries the execute loop runs through completely. -/
def cleanPrefix (t : List (PendingResult × Int)) : Bool := t.all cleanStep

/-- Affected-row contribution of a single pending result. -/
def addOf (p : PendingResult) (acc : Nat) : Nat :=
  match p with
  | PendingResult.okPacket n => u64add acc n
  | _ => acc

/-- The value `connection::execute` returns for query text `q` once the
connection is live: 0 when `mysql_real_query` fails, else the loop's
accumulated count. -/
def execVal (env : Env) (q : String) : Nat :=
  if (env.query q).ok then (execLoop (env.query q).results 0).1 else 0

/-- Whether `connection::execute` reports an error for query text `q` once
the connection is live. -/
def execErr (env : Env) (q : String) : Bool :=
  if (env.query q).ok then
    match (execLoop (env.query q).results 0).2 with
    | ExitKind.storeErr => true
    | ExitKind.statusErr => true
    | _ => false
  else
    true

/-- Whether one `SET OPTION` statement passes connect's `1 != execute(...)`
check. -/
def optPass (env : Env) (p : String × String) : Bool :=
  execVal env (optQ p) == 1

/-- Normal form of the session-option loop when the connection is live:
value, state and log as functions of the oracle alone. -/
def optsNF (env : Env) : List (String × String) → ConnState → Res Bool
  | [], s => ⟨true, s, []⟩
  | p :: rest, s =>
    let elog : List Event :=
      [Event.callStat, Event.callRealQuery (optQ p)] ++
        (if execErr env (optQ p) then [Event.errReported] else [])
    if execVal env (optQ p) = 1 then
      let r2 := optsNF env rest s
      ⟨r2.val, r2.st, elog ++ r2.log⟩
    else
      ⟨false, { s with m_mysql := none }, elog ++ [Event.errReported, Event.callClose]⟩

/-- Normal form of connect's slow path when every nested ensure-connected
call takes the fast path (the handle just established reports live). -/
def connectBodyNF (env : Env) (acct : Account) (st : ConnState) : Res Bool :=
  if env.init_ok = false then
    ⟨false, { st with m_mysql := none }, [Event.callInit, Event.errReported]⟩
  else
    let st1 : ConnState := { st with m_mysql := some HandleState.raw }
    if acct.ssl_key ≠ "" ∧ env.ssl_ok = false then
      ⟨false, st1, [Event.callInit, Event.callSslSet, Event.errReported]⟩
    else
      let sslLog : List Event := if acct.ssl_key = "" then [] else [Event.callSslSet]
      if env.connect_ok = false then
        ⟨false, st1, [Event.callInit] ++ sslLog ++ [Event.callRealConnect, Event.errReported]⟩
      else
        let st2 : ConnState := { st1 with m_mysql := some HandleState.established }
        let log0 : List Event := [Event.callInit] ++ sslLog ++ [Event.callRealConnect]
        let r1 : Res Bool :=
          if st2.m_auto_commit = acct.auto_commit then ⟨true, st2, []⟩
          else if env.autocommit_ok acct.auto_commit then
            ⟨true, { st2 with m_auto_commit := acct.auto_commit },
              [Event.callStat, Event.callAutocommit acct.auto_commit]⟩
          else
            ⟨false, st2,
              [Event.callStat, Event.callAutocommit acct.auto_commit, Event.errReported]⟩
        if r1.val = false then
          ⟨false, { r1.st with m_mysql := none },
            log0 ++ r1.log ++ [Event.errReported, Event.callClose]⟩
        else
          let r2 : Res Bool :=
            if acct.schema = "" then ⟨true, r1.st, []⟩
            else if env.select_db_ok acct.schema then
              ⟨true, { r1.st with m_schema := acct.schema },
                [Event.callStat, Event.callSelectDb acct.schema]⟩
            else
              ⟨false, r1.st,
                [Event.callStat, Event.callSelectDb acct.schema, Event.errReported]⟩
          if r2.val = false then
            ⟨false, { r2.st with m_mysql := none },
              log0 ++ r1.log ++ r2.log ++ [Event.errReported, Event.callClose]⟩
          else
            let r3 := optsNF env acct.options r2.st
            ⟨r3.val, r3.st, log0 ++ r1.log ++ r2.log ++ r3.log⟩

/-- An ensure-connected function that no-ops on any established handle:
what each nested `connect()` re-entry does once the handshake succeeded. -/
def fastOn (c : ConnState → Option (Res Bool)) : Prop :=
  ∀ s : ConnState, s.m_mysql = some HandleState.established →
    c s = some ⟨true, s, [Event.callStat]⟩

/-! Concrete instances used to evaluate the development. -/

/-- An account with no TLS, no default schema, no options. -/
def acct0 : Account :=
  { ssl_key := "", ssl_certificate := "", ssl_ca := "", ssl_ca_path := "",
    ssl_cipher := "", host_name := "localhost", user_name := "u",
    password := "p", unix_socket := "", port := 3306, auto_commit := true,
    schema := "", options := [] }

/-- An account requesting TLS. -/
def acctSsl : Account := { acct0 with ssl_key := "key.pem" }

/-- An account with one session option. -/
def acctOpt : Account := { acct0 with options := [("a", "b")] }

/-- An all-succeeding oracle whose every query yields one ok packet with one
affected row. -/
def env0 : Env :=
  { init_ok := true, ssl_ok := true, connect_ok := true, stat_live := true,
    autocommit_ok := fun _ => true, select_db_ok := fun _ => true,
    set_charset_ok := fun _ => true,
    query := fun _ => ⟨true, [(PendingResult.okPacket 1, -1)]⟩,
    insert_id := fun _ => 7 }

/-- Oracle whose TLS configuration call fails. -/
def envSslFail : Env := { env0 with ssl_ok := false }

/-- Oracle whose select-database call fails. -/
def envDbFail : Env := { env0 with select_db_ok := fun _ => false }

/-- Oracle answering every query with a three-statement trace:
2 affected rows, a result set, then 3 affected rows. -/
def envMulti : Env :=
  { env0 with query := fun _ =>
      ⟨true, [(PendingResult.okPacket 2, 0), (PendingResult.resultSet, 0),
              (PendingResult.okPacket 3, -1)]⟩ }

/-- Oracle answering every query with a trace that fails to store its second
result. -/
def envStoreErr : Env :=
  { env0 with query := fun _ =>
      ⟨true, [(PendingResult.okPacket 2, 0), (PendingResult.storeError, 0)]⟩ }

/-- A connection state whose handle is established (with `env0.stat_live`
it is connected). -/
def stEst : ConnState := ⟨some HandleState.established, "", "", true⟩

/-! ## Basic lemmas about the connected predicate and the fast path -/

theorem connected_true_iff (env : Env) (s : ConnState) :
    connected env s = true ↔
      (s.m_mysql = some HandleState.established ∧ env.stat_live = true) := by
  cases hm : s.m_mysql with
  | none => simp [connected, hm]
  | some h => cases h <;> simp [connected, hm]

theorem connected_of_none (env : Env) (s : ConnState) (h : s.m_mysql = none) :
    connected env s = false := by
  simp [connected, h]

theorem connected_of_raw (env : Env) (s : ConnState)
    (h : s.m_mysql = some HandleState.raw) : connected env s = false := by
  simp [connected, h]

theorem connect_fast (fuel : Nat) (env : Env) (acct : Account) (s : ConnState)
    (h : connected env s = true) :
    connect fuel env acct s = some ⟨true, s, statProbeLog s⟩ := by
  cases fuel <;> simp [connect, h]

theorem connect_fastOn (env : Env) (acct : Account) (h : env.stat_live = true)
    (fuel : Nat) : fastOn (connect fuel env acct) := by
  intro s hs
  have hc : connected env s = true := (connected_true_iff env s).2 ⟨hs, h⟩
  rw [connect_fast fuel env acct s hc]
  simp [statProbeLog, hs]

/-! ## Normal forms of the wrapped operations on a live connection -/

theorem set_auto_commitW_nf {c : ConnState → Option (Res Bool)} (hc : fastOn c)
    (env : Env) (flag : Bool) {s : ConnState}
    (hs : s.m_mysql = some HandleState.established) :
    set_auto_commitW c env flag s =
      some (if s.m_auto_commit = flag then ⟨true, s, []⟩
            else if env.autocommit_ok flag then
              ⟨true, { s with m_auto_commit := flag },
                [Event.callStat, Event.callAutocommit flag]⟩
            else
              ⟨false, s, [Event.callStat, Event.callAutocommit flag, Event.errReported]⟩) := by
  unfold set_auto_commitW
  rw [hc s hs]
  by_cases h1 : s.m_auto_commit = flag
  · simp [h1]
  · by_cases h2 : env.autocommit_ok flag <;> simp [h1, h2]

theorem set_schemaW_nf {c : ConnState → Option (Res Bool)} (hc : fastOn c)
    (env : Env) (name : String) {s : ConnState}
    (hs : s.m_mysql = some HandleState.established) :
    set_schemaW c env name s =
      some (if env.select_db_ok name then
              ⟨true, { s with m_schema := name },
                [Event.callStat, Event.callSelectDb name]⟩
            else
              ⟨false, s, [Event.callStat, Event.callSelectDb name, Event.errReported]⟩) := by
  unfold set_schemaW
  rw [hc s hs]
  by_cases h1 : env.select_db_ok name <;> simp [h1]

theorem executeW_nf {c : ConnState → Option (Res Bool)} (hc : fastOn c)
    (env : Env) (q : String) {s : ConnState}
    (hs : s.m_mysql = some HandleState.established) :
    executeW c env q s =
      some ⟨execVal env q, s,
        [Event.callStat, Event.callRealQuery q] ++
          (if execErr env q then [Event.errReported] else [])⟩ := by
  unfold executeW
  rw [hc s hs]
  cases hq : (env.query q).ok with
  | false => simp [execVal, execErr, hq]
  | true =>
    rcases he : execLoop (env.query q).results 0 with ⟨n, k⟩
    cases k <;> simp [execVal, execErr, hq, he]

theorem setOptionsW_nf {c : ConnState → Option (Res Bool)} (hc : fastOn c)
    (env : Env) (opts : List (String × String)) :
    ∀ s : ConnState, s.m_mysql = some HandleState.established →
      setOptionsW c env opts s = some (optsNF env opts s) := by
  induction opts with
  | nil => intro s hs; simp [setOptionsW, optsNF]
  | cons p rest ih =>
    intro s hs
    rw [setOptionsW, executeW_nf hc env (optQ p) hs]
    by_cases hv : execVal env (optQ p) = 1
    · simp [optsNF, hv, ih s hs]
    · simp [optsNF, hv, disconnectOp, hs]

theorem connectBody_nf {c : ConnState → Option (Res Bool)} (hc : fastOn c)
    (env : Env) (acct : Account) (st : ConnState) :
    connectBody c env acct st = some (connectBodyNF env acct st) := by
  simp only [connectBody, connectBodyNF]
  by_cases hinit : env.init_ok = false
  · simp [hinit]
  · simp only [hinit, if_false]
    by_cases hssl : acct.ssl_key ≠ "" ∧ env.ssl_ok = false
    · simp [hssl]
    · simp only [hssl, if_false]
      by_cases hcn : env.connect_ok = false
      · simp [hcn]
      · simp only [hcn, if_false]
        rw [set_auto_commitW_nf hc env acct.auto_commit rfl]
        by_cases hA : st.m_auto_commit = acct.auto_commit
        · simp only [hA, if_true, if_pos]
          by_cases hsch : acct.schema = ""
          · simp only [hsch, if_true, if_pos]
            rw [setOptionsW_nf hc env acct.options _ rfl]
            simp
          · simp only [hsch, if_false]
            rw [set_schemaW_nf hc env acct.schema rfl]
            by_cases hdb : env.select_db_ok acct.schema
            · simp only [hdb, if_true, if_pos]
              rw [setOptionsW_nf hc env acct.options _ rfl]
              simp
            · simp [hdb, disconnectOp]
        · simp only [hA, if_false]
          by_cases hak : env.autocommit_ok acct.auto_commit
          · simp only [hak, if_true, if_pos]
            by_cases hsch : acct.schema = ""
            · simp only [hsch, if_true, if_pos]
              rw [setOptionsW_nf hc env acct.options _ rfl]
              simp
            · simp only [hsch, if_false]
              rw [set_schemaW_nf hc env acct.schema rfl]
              by_cases hdb : env.select_db_ok acct.schema
              · simp only [hdb, if_true, if_pos]
                rw [setOptionsW_nf hc env acct.options _ rfl]
                simp
              · simp [hdb, disconnectOp]
          · simp [hak, disconnectOp]

theorem connect_pos_nf (fuel : Nat) (env : Env) (acct : Account) (st : ConnState)
    (hlive : env.stat_live = true) (hnc : connected env st = false) :
    connect (fuel + 1) env acct st =
      some ⟨(connectBodyNF env acct st).val, (connectBodyNF env acct st).st,
            statProbeLog st ++ (connectBodyNF env acct st).log⟩ := by
  rw [connect, connectBody_nf (connect_fastOn env acct hlive fuel)]
  simp [hnc]

/-! ## Lemmas about the execute loop -/

theorem execLoop_clean_app (t2 : List (PendingResult × Int)) :
    ∀ pre : List (PendingResult × Int), cleanPrefix pre = true → ∀ acc : Nat,
      execLoop (pre ++ t2) acc = execLoop t2 (foldAff acc pre) := by
  intro pre
  induction pre with
  | nil => intro _ acc; simp [foldAff]
  | cons hd tl ih =>
    intro hclean acc
    rcases hd with ⟨p, s⟩
    rw [cleanPrefix, List.all_cons, Bool.and_eq_true] at hclean
    obtain ⟨hstep, htl⟩ := hclean
    cases p with
    | storeError => simp [cleanStep] at hstep
    | resultSet =>
      have hs : s = 0 := by simpa [cleanStep] using hstep
      subst hs
      simpa [execLoop, foldAff] using ih htl acc
    | okPacket n =>
      have hs : s = 0 := by simpa [cleanStep] using hstep
      subst hs
      simpa [execLoop, foldAff] using ih htl (u64add acc n)

theorem execLoop_wf :
    ∀ t : List (PendingResult × Int), wellFormedTrace t = true →
      ∀ acc : Nat, execLoop t acc = (foldAff acc t, ExitKind.normal)
  | [] => by intro h; simp [wellFormedTrace] at h
  | [(p, s)] => by
    intro h acc
    cases p with
    | storeError => simp [wellFormedTrace] at h
    | resultSet =>
      have hs : s < 0 := by simpa [wellFormedTrace] using h
      have h1 : ¬ s > 0 := by omega
      have h2 : ¬ s = 0 := by omega
      simp [execLoop, foldAff, h1, h2]
    | okPacket n =>
      have hs : s < 0 := by simpa [wellFormedTrace] using h
      have h1 : ¬ s > 0 := by omega
      have h2 : ¬ s = 0 := by omega
      simp [execLoop, foldAff, h1, h2]
  | (p, s) :: q :: rest => by
    intro h acc
    cases p with
    | storeError => simp [wellFormedTrace] at h
    | resultSet =>
      simp only [wellFormedTrace, Bool.and_eq_true] at h
      obtain ⟨hs, hwf⟩ := h
      have hs0 : s = 0 := by simpa using hs
      subst hs0
      simpa [execLoop, foldAff] using execLoop_wf (q :: rest) hwf acc
    | okPacket n =>
      simp only [wellFormedTrace, Bool.and_eq_true] at h
      obtain ⟨hs, hwf⟩ := h
      have hs0 : s = 0 := by simpa using hs
      subst hs0
      simpa [execLoop, foldAff] using execLoop_wf (q :: rest) hwf (u64add acc n)

theorem execLoop_storeErr_shape (pre rest : List (PendingResult × Int)) (s : Int)
    (hclean : cleanPrefix pre = true) (acc : Nat) :
    execLoop (pre ++ (PendingResult.storeError, s) :: rest) acc =
      (foldAff acc pre, ExitKind.storeErr) := by
  rw [execLoop_clean_app _ pre hclean acc]
  simp [execLoop]

theorem execLoop_statusErr_shape (pre rest : List (PendingResult × Int))
    (p : PendingResult) (s : Int) (hclean : cleanPrefix pre = true)
    (hp : p ≠ PendingResult.storeError) (hs : 0 < s) (acc : Nat) :
    execLoop (pre ++ (p, s) :: rest) acc =
      (addOf p (foldAff acc pre), ExitKind.statusErr) := by
  rw [execLoop_clean_app _ pre hclean acc]
  cases p with
  | storeError => exact absurd rfl hp
  | resultSet => simp [execLoop, addOf, hs]
  | okPacket n => simp [execLoop, addOf, hs]

theorem execLoop_normal_shape (pre rest : List (PendingResult × Int))
    (p : PendingResult) (s : Int) (hclean : cleanPrefix pre = true)
    (hp : p ≠ PendingResult.storeError) (hs : s < 0) (acc : Nat) :
    (execLoop (pre ++ (p, s) :: rest) acc).2 = ExitKind.normal := by
  rw [execLoop_clean_app _ pre hclean acc]
  have h1 : ¬ s > 0 := by omega
  have h2 : ¬ s = 0 := by omega
  cases p with
  | storeError => exact absurd rfl hp
  | resultSet => simp [execLoop, h1, h2]
  | okPacket n => simp [execLoop, h1, h2]

theorem execLoop_normal_decomp :
    ∀ (t : List (PendingResult × Int)) (acc : Nat),
      (execLoop t acc).2 = ExitKind.normal →
      ∃ pre p s rest, t = pre ++ (p, s) :: rest ∧ cleanPrefix pre = true ∧
        p ≠ PendingResult.storeError ∧ s < 0
  | [], acc, h => by simp [execLoop] at h
  | (p, s) :: rest, acc, h => by
    cases p with
    | storeError => simp [execLoop] at h
    | resultSet =>
      by_cases h1 : s > 0
      · rw [execLoop] at h; simp [h1] at h
      · by_cases h2 : s = 0
        · subst h2
          have h' : (execLoop rest acc).2 = ExitKind.normal := by
            rw [execLoop] at h; simpa [h1] using h
          obtain ⟨pre, p', s', rest', ht, hcl, hp, hs⟩ :=
            execLoop_normal_decomp rest acc h'
          refine ⟨(PendingResult.resultSet, 0) :: pre, p', s', rest', by simp [ht],
            ?_, hp, hs⟩
          rw [cleanPrefix, List.all_cons, Bool.and_eq_true]
          rw [cleanPrefix] at hcl
          exact ⟨by simp [cleanStep], hcl⟩
        · exact ⟨[], PendingResult.resultSet, s, rest, rfl, rfl, by simp, by omega⟩
    | okPacket n =>
      by_cases h1 : s > 0
      · rw [execLoop] at h; simp [h1] at h
      · by_cases h2 : s = 0
        · subst h2
          have h' : (execLoop rest (u64add acc n)).2 = ExitKind.normal := by
            rw [execLoop] at h; simpa [h1] using h
          obtain ⟨pre, p', s', rest', ht, hcl, hp, hs⟩ :=
            execLoop_normal_decomp rest (u64add acc n) h'
          refine ⟨(PendingResult.okPacket n, 0) :: pre, p', s', rest', by simp [ht],
            ?_, hp, hs⟩
          rw [cleanPrefix, List.all_cons, Bool.and_eq_true]
          rw [cleanPrefix] at hcl
          exact ⟨by simp [cleanStep], hcl⟩
        · exact ⟨[], PendingResult.okPacket n, s, rest, rfl, rfl, by simp, by omega⟩

/-! ## Lemmas about the option-loop normal form -/

theorem optsNF_pass (env : Env) :
    ∀ (opts : List (String × String)) (s : ConnState),
      opts.all (optPass env) = true →
      (optsNF env opts s).val = true ∧ (optsNF env opts s).st = s ∧
        ∀ p ∈ opts, Event.callRealQuery (optQ p) ∈ (optsNF env opts s).log := by
  intro opts
  induction opts with
  | nil => intro s _; simp [optsNF]
  | cons p rest ih =>
    intro s hall
    rw [List.all_cons, Bool.and_eq_true] at hall
    obtain ⟨hp, hrest⟩ := hall
    have hv : execVal env (optQ p) = 1 := by simpa [optPass] using hp
    obtain ⟨iv, ist, ilog⟩ := ih s hrest
    refine ⟨by simp [optsNF, hv, iv], by simp [optsNF, hv, ist], ?_⟩
    intro p' hp'
    rcases List.mem_cons.1 hp' with h | h
    · subst h; simp [optsNF, hv]
    · simp only [optsNF, hv, if_true, if_pos]
      simp only [List.mem_append]
      exact Or.inr (ilog p' h)

theorem optsNF_fail (env : Env) :
    ∀ (opts : List (String × String)) (s : ConnState),
      opts.all (optPass env) = false →
      (optsNF env opts s).val = false ∧ (optsNF env opts s).st.m_mysql = none := by
  intro opts
  induction opts with
  | nil => intro s h; simp at h
  | cons p rest ih =>
    intro s hall
    by_cases hv : execVal env (optQ p) = 1
    · have hp : optPass env p = true := by simp [optPass, hv]
      have hrest : rest.all (optPass env) = false := by
        rw [List.all_cons, hp] at hall; simpa using hall
      obtain ⟨iv, ist⟩ := ih s hrest
      exact ⟨by simp [optsNF, hv, iv], by simp [optsNF, hv, ist]⟩
    · exact ⟨by simp [optsNF, hv], by simp [optsNF, hv]⟩

/-! ## Branch-specific reductions of the connect slow path -/

theorem connectBody_initFail (c : ConnState → Option (Res Bool)) (env : Env)
    (acct : Account) (st : ConnState) (h : env.init_ok = false) :
    connectBody c env acct st =
      some ⟨false, { st with m_mysql := none },
            [Event.callInit, Event.errReported]⟩ := by
  simp [connectBody, h]

theorem connectBody_sslFail (c : ConnState → Option (Res Bool)) (env : Env)
    (acct : Account) (st : ConnState) (h1 : env.init_ok = true)
    (h2 : acct.ssl_key ≠ "") (h3 : env.ssl_ok = false) :
    connectBody c env acct st =
      some ⟨false, { st with m_mysql := some HandleState.raw },
            [Event.callInit, Event.callSslSet, Event.errReported]⟩ := by
  simp [connectBody, h1, h2, h3]

theorem connectBody_handshakeFail (c : ConnState → Option (Res Bool)) (env : Env)
    (acct : Account) (st : ConnState) (h1 : env.init_ok = true)
    (h2 : acct.ssl_key = "" ∨ env.ssl_ok = true) (h3 : env.connect_ok = false) :
    connectBody c env acct st =
      some ⟨false, { st with m_mysql := some HandleState.raw },
            [Event.callInit] ++
              (if acct.ssl_key = "" then ([] : List Event) else [Event.callSslSet]) ++
              [Event.callRealConnect, Event.errReported]⟩ := by
  have hnot : ¬(acct.ssl_key ≠ "" ∧ env.ssl_ok = false) := by
    rcases h2 with h | h <;> simp [h]
  simp [connectBody, h1, hnot, h3]

theorem connectBodyNF_acFail (env : Env) (acct : Account) (st : ConnState)
    (h1 : env.init_ok = true) (h2 : acct.ssl_key = "" ∨ env.ssl_ok = true)
    (h3 : env.connect_ok = true) (hA : st.m_auto_commit ≠ acct.auto_commit)
    (hak : env.autocommit_ok acct.auto_commit = false) :
    (connectBodyNF env acct st).val = false ∧
      (connectBodyNF env acct st).st = { st with m_mysql := none } := by
  have hnot : ¬(acct.ssl_key ≠ "" ∧ env.ssl_ok = false) := by
    rcases h2 with h | h <;> simp [h]
  constructor <;> simp [connectBodyNF, h1, hnot, h3, hA, hak]

theorem connectBodyNF_schemaFail (env : Env) (acct : Account) (st : ConnState)
    (h1 : env.init_ok = true) (h2 : acct.ssl_key = "" ∨ env.ssl_ok = true)
    (h3 : env.connect_ok = true) (hac : st.m_auto_commit = acct.auto_commit)
    (hsch : acct.schema ≠ "") (hdb : env.select_db_ok acct.schema = false) :
    (connectBodyNF env acct st).val = false ∧
      (connectBodyNF env acct st).st = { st with m_mysql := none } := by
  have hnot : ¬(acct.ssl_key ≠ "" ∧ env.ssl_ok = false) := by
    rcases h2 with h | h <;> simp [h]
  constructor <;> simp [connectBodyNF, h1, hnot, h3, hac, hsch, hdb]

theorem connectBodyNF_optStep (env : Env) (acct : Account) (st : ConnState)
    (hinit : env.init_ok = true) (hssl : acct.ssl_key = "")
    (hcn : env.connect_ok = true) (hac : st.m_auto_commit = acct.auto_commit)
    (hschema : acct.schema = "") :
    connectBodyNF env acct st =
      ⟨(optsNF env acct.options { st with m_mysql := some HandleState.established }).val,
       (optsNF env acct.options { st with m_mysql := some HandleState.established }).st,
       [Event.callInit, Event.callRealConnect] ++
         (optsNF env acct.options { st with m_mysql := some HandleState.established }).log⟩ := by
  simp [connectBodyNF, hinit, hssl, hcn, hac, hschema]

/-! ## Claim theorems -/

/-- C3: `connect()` is idempotent — on an already connected Connection it
returns true immediately with the state unchanged, performing only the
`mysql_stat` liveness probe: no session-handle allocation (`mysql_init`) and
no handshake (`mysql_real_connect`), so a second consecutive `connect()` is
a no-op and the handshake happens at most once. -/
theorem connect_idempotent (fuel : Nat) (env : Env) (acct : Account)
    (st : ConnState) (h : connected env st = true) :
    connect fuel env acct st = some ⟨true, st, statProbeLog st⟩ ∧
      Event.callInit ∉ statProbeLog st ∧
      Event.callRealConnect ∉ statProbeLog st := by
  refine ⟨connect_fast fuel env acct st h, ?_, ?_⟩ <;>
    cases hm : st.m_mysql <;> simp [statProbeLog, hm]

/-- Witness for `connect_idempotent` at a concrete connected state. -/
theorem connect_idempotent_witness :
    connect 1 env0 acct0 stEst = some ⟨true, stEst, statProbeLog stEst⟩ ∧
      Event.callInit ∉ statProbeLog stEst ∧
      Event.callRealConnect ∉ statProbeLog stEst :=
  connect_idempotent 1 env0 acct0 stEst (by decide)

/-- C8: `connected()` is false immediately after construction and
immediately after any `disconnect()`; `disconnect` twice in a row equals
`disconnect` once, and on a Connection already in the disconnected state
(no session handle) `disconnect` is a no-op. -/
theorem disconnect_idempotent (env : Env) (st : ConnState) :
    connected env initConn = false ∧
      connected env (disconnect st) = false ∧
      disconnect (disconnect st) = disconnect st ∧
      (st.m_mysql = none → disconnect st = st) := by
  refine ⟨rfl, ?_, ?_, ?_⟩
  · cases hm : st.m_mysql <;> simp [disconnect, disconnectOp, connected, hm]
  · cases hm : st.m_mysql <;> simp [disconnect, disconnectOp, hm]
  · intro h; simp [disconnect, disconnectOp, h]

/-- Witness for `disconnect_idempotent`, discharging the no-op hypothesis at
the freshly constructed state. -/
theorem disconnect_idempotent_witness :
    connected env0 (disconnect stEst) = false ∧ disconnect initConn = initConn :=
  ⟨(disconnect_idempotent env0 stEst).2.1,
   (disconnect_idempotent env0 initConn).2.2.2 rfl⟩

/-- C10: on an already connected Connection, `query`, `execute` and `insert`
leave the member state — in particular the cached schema, charset and
autocommit flag — exactly as it was, whether they succeed or fail. -/
theorem ops_preserve_caches (fuel : Nat) (env : Env) (acct : Account)
    (q : String) (st : ConnState) (h : connected env st = true) :
    (∃ r, query fuel env acct q st = some r ∧ r.st = st) ∧
      (∃ r, execute fuel env acct q st = some r ∧ r.st = st) ∧
      (∃ r, insert fuel env acct q st = some r ∧ r.st = st) := by
  have hfast := connect_fast fuel env acct st h
  refine ⟨?_, ?_, ?_⟩
  · unfold query queryW
    rw [hfast]
    by_cases hq : (env.query q).ok <;> simp [hq]
  · unfold execute executeW
    rw [hfast]
    by_cases hq : (env.query q).ok
    · rcases he : execLoop (env.query q).results 0 with ⟨n, k⟩
      cases k <;> simp [hq, he]
    · simp [hq]
  · unfold insert insertW
    rw [hfast]
    by_cases hq : (env.query q).ok <;> simp [hq]

/-- Witness for `ops_preserve_caches` at a concrete connected state. -/
theorem ops_preserve_caches_witness :
    ∃ r, execute 1 env0 acct0 "INSERT" stEst = some r ∧ r.st = stEst :=
  (ops_preserve_caches 1 env0 acct0 "INSERT" stEst (by decide)).2.1

/-- C5: on a connected Connection, a failing `mysql_select_db` inside
`set_schema` yields false with the state unchanged (cached schema keeps its
previous value, the session handle is untouched, no disconnect); a
successful call updates the cached schema to the new name and yields
true. -/
theorem set_schema_cache (fuel : Nat) (env : Env) (acct : Account)
    (name : String) (st : ConnState) (h : connected env st = true) :
    (env.select_db_ok name = false →
       set_schema fuel env acct name st =
         some ⟨false, st,
               statProbeLog st ++ [Event.callSelectDb name, Event.errReported]⟩) ∧
    (env.select_db_ok name = true →
       set_schema fuel env acct name st =
         some ⟨true, { st with m_schema := name },
               statProbeLog st ++ [Event.callSelectDb name]⟩) := by
  have hfast := connect_fast fuel env acct st h
  constructor <;> intro hdb <;>
    · unfold set_schema set_schemaW
      rw [hfast]
      simp [hdb]

/-- Witness for `set_schema_cache`: a failing select keeps the cached
schema, a succeeding one replaces it. -/
theorem set_schema_cache_witness :
    set_schema 1 envDbFail acct0 "db2" stEst =
      some ⟨false, stEst,
            statProbeLog stEst ++ [Event.callSelectDb "db2", Event.errReported]⟩ ∧
    set_schema 1 env0 acct0 "db2" stEst =
      some ⟨true, { stEst with m_schema := "db2" },
            statProbeLog stEst ++ [Event.callSelectDb "db2"]⟩ :=
  ⟨(set_schema_cache 1 envDbFail acct0 "db2" stEst (by decide)).1 rfl,
   (set_schema_cache 1 env0 acct0 "db2" stEst (by decide)).2 rfl⟩

/-- C6: `set_auto_commit` with the flag equal to the cached value returns
true with an empty native-call log (no connect attempt, no autocommit
round-trip); with a differing flag on a connected session, native success
updates the cache and returns true, native failure returns false with the
cache unchanged. -/
theorem set_auto_commit_noop (fuel : Nat) (env : Env) (acct : Account)
    (flag : Bool) (st : ConnState) :
    (st.m_auto_commit = flag →
       set_auto_commit fuel env acct flag st = some ⟨true, st, []⟩) ∧
    (st.m_auto_commit ≠ flag → connected env st = true →
       (env.autocommit_ok flag = true →
          set_auto_commit fuel env acct flag st =
            some ⟨true, { st with m_auto_commit := flag },
                  statProbeLog st ++ [Event.callAutocommit flag]⟩) ∧
       (env.autocommit_ok flag = false →
          set_auto_commit fuel env acct flag st =
            some ⟨false, st,
                  statProbeLog st ++ [Event.callAutocommit flag, Event.errReported]⟩)) := by
  constructor
  · intro hcache
    simp [set_auto_commit, set_auto_commitW, hcache]
  · intro hcache hc
    have hfast := connect_fast fuel env acct st hc
    constructor <;> intro hak <;>
      · unfold set_auto_commit set_auto_commitW
        rw [hfast]
        simp [hcache, hak]

/-- Witness for `set_auto_commit_noop`: cache hit issues zero native
calls. -/
theorem set_auto_commit_noop_witness :
    set_auto_commit 1 env0 acct0 true stEst = some ⟨true, stEst, []⟩ :=
  (set_auto_commit_noop 1 env0 acct0 true stEst).1 rfl

/-- C2: on a connected Connection, when `mysql_real_query` succeeds and the
submitted text yields a well-formed multi-statement result trace (one result
per statement, loop running to the terminal negative advance status),
`execute` returns the cumulative `u64` affected-row count over the
zero-field statements; result-set statements contribute nothing, and a text
with no result sets and no affected rows yields 0.  No error is reported:
the returned log holds only the liveness probe and the query call. -/
theorem execute_multi_sum (fuel : Nat) (env : Env) (acct : Account)
    (q : String) (st : ConnState) (hc : connected env st = true)
    (hok : (env.query q).ok = true)
    (hwf : wellFormedTrace (env.query q).results = true) :
    execute fuel env acct q st =
      some ⟨sumAffected (env.query q).results, st,
            statProbeLog st ++ [Event.callRealQuery q]⟩ := by
  unfold execute executeW
  rw [connect_fast fuel env acct st hc]
  simp [hok, execLoop_wf _ hwf, sumAffected]

/-- Witness for `execute_multi_sum`: a three-statement text (2 rows, a
result set, 3 rows) yields 5. -/
theorem execute_multi_sum_witness :
    execute 1 envMulti acct0 "INSERT a; SELECT b; INSERT c" stEst =
      some ⟨5, stEst,
            statProbeLog stEst ++ [Event.callRealQuery "INSERT a; SELECT b; INSERT c"]⟩ := by
  have h := execute_multi_sum 1 envMulti acct0 "INSERT a; SELECT b; INSERT c"
    stEst (by decide) (by decide) (by decide)
  rw [h]
  decide

/-- C4: on a connected Connection with a successful native query call,
`execute`'s value is whatever the result loop accumulates, and an error is
reported exactly when the loop exits on a failed result store or a positive
advance status.  A failed store after a clean prefix returns the count
accumulated over the prefix; a positive advance status after processing a
result returns the count including that result; and the loop ends normally
exactly when a negative advance status is reached after a clean prefix. -/
theorem execute_error_exits (fuel : Nat) (env : Env) (acct : Account)
    (q : String) (st : ConnState) (hc : connected env st = true)
    (hok : (env.query q).ok = true) :
    (∃ r, execute fuel env acct q st = some r ∧
       r.val = (execLoop (env.query q).results 0).1 ∧
       (Event.errReported ∈ r.log ↔
         ((execLoop (env.query q).results 0).2 = ExitKind.storeErr ∨
          (execLoop (env.query q).results 0).2 = ExitKind.statusErr))) ∧
    (∀ pre rest s, cleanPrefix pre = true →
       execLoop (pre ++ (PendingResult.storeError, s) :: rest) 0 =
         (sumAffected pre, ExitKind.storeErr)) ∧
    (∀ pre rest p s, cleanPrefix pre = true → p ≠ PendingResult.storeError →
       0 < s →
       execLoop (pre ++ (p, s) :: rest) 0 =
         (addOf p (sumAffected pre), ExitKind.statusErr)) ∧
    (∀ t acc, (execLoop t acc).2 = ExitKind.normal ↔
       ∃ pre p s rest, t = pre ++ (p, s) :: rest ∧ cleanPrefix pre = true ∧
         p ≠ PendingResult.storeError ∧ s < 0) := by
  have hm := ((connected_true_iff env st).1 hc).1
  refine ⟨?_, ?_, ?_, ?_⟩
  · unfold execute executeW
    rw [connect_fast fuel env acct st hc]
    rcases he : execLoop (env.query q).results 0 with ⟨n, k⟩
    cases k with
    | normal =>
      refine ⟨⟨n, st, statProbeLog st ++ [Event.callRealQuery q]⟩, ?_, by simp [he], ?_⟩
      · simp [hok, he]
      · simp [statProbeLog, hm, he]
    | exhausted =>
      refine ⟨⟨n, st, statProbeLog st ++ [Event.callRealQuery q]⟩, ?_, by simp [he], ?_⟩
      · simp [hok, he]
      · simp [statProbeLog, hm, he]
    | storeErr =>
      refine ⟨⟨n, st, statProbeLog st ++ [Event.callRealQuery q] ++ [Event.errReported]⟩,
        ?_, by simp [he], ?_⟩
      · simp [hok, he]
      · simp [statProbeLog, hm, he]
    | statusErr =>
      refine ⟨⟨n, st, statProbeLog st ++ [Event.callRealQuery q] ++ [Event.errReported]⟩,
        ?_, by simp [he], ?_⟩
      · simp [hok, he]
      · simp [statProbeLog, hm, he]
  · intro pre rest s hclean
    simpa [sumAffected] using execLoop_storeErr_shape pre rest s hclean 0
  · intro pre rest p s hclean hp hs
    simpa [sumAffected] using execLoop_statusErr_shape pre rest p s hclean hp hs 0
  · intro t acc
    constructor
    · exact execLoop_normal_decomp t acc
    · rintro ⟨pre, p, s, rest, rfl, hclean, hp, hs⟩
      exact execLoop_normal_shape pre rest p s hclean hp hs acc

/-- Witness for `execute_error_exits`: a trace whose second result fails to
store returns the 2 rows accumulated before it and reports the error. -/
theorem execute_error_exits_witness :
    ∃ r, execute 1 envStoreErr acct0 "q" stEst = some r ∧ r.val = 2 ∧
      Event.errReported ∈ r.log := by
  obtain ⟨r, hr, hv, hl⟩ :=
    (execute_error_exits 1 envStoreErr acct0 "q" stEst (by decide) (by decide)).1
  refine ⟨r, hr, ?_, ?_⟩
  · rw [hv]; decide
  · exact hl.2 (by decide)

/-- C9: `connect` terminates despite the re-entry through
`set_auto_commit`/`set_schema`/`execute`: once the handshake has succeeded
the freshly established handle reports live, so every nested `connect`
returns through the `connected()` fast path.  One unit of fuel (one slow
path entry) already determines the result: every fuel bound `≥ 1` computes
the same outcome, and that outcome exists (no fuel exhaustion). -/
theorem connect_fuel_bound (env : Env) (acct : Account) (st : ConnState)
    (h : env.stat_live = true) (fuel : Nat) (hf : 1 ≤ fuel) :
    connect fuel env acct st = connect 1 env acct st ∧
      (connect 1 env acct st).isSome = true := by
  obtain ⟨k, rfl⟩ : ∃ k, fuel = k + 1 := ⟨fuel - 1, by omega⟩
  by_cases hc : connected env st = true
  · rw [connect_fast (k + 1) env acct st hc, connect_fast 1 env acct st hc]
    exact ⟨rfl, rfl⟩
  · have hnc : connected env st = false := by
      cases hcc : connected env st
      · rfl
      · exact absurd hcc hc
    have h1 : connect 1 env acct st =
        some ⟨(connectBodyNF env acct st).val, (connectBodyNF env acct st).st,
              statProbeLog st ++ (connectBodyNF env acct st).log⟩ :=
      connect_pos_nf 0 env acct st h hnc
    rw [connect_pos_nf k env acct st h hnc, h1]
    exact ⟨rfl, rfl⟩

/-- Witness for `connect_fuel_bound` at fuel 5 on a fresh Connection. -/
theorem connect_fuel_bound_witness :
    connect 5 env0 acct0 initConn = connect 1 env0 acct0 initConn ∧
      (connect 1 env0 acct0 initConn).isSome = true :=
  connect_fuel_bound env0 acct0 initConn rfl 5 (by omega)

/-- C7: during `connect`, each entry `(name, value)` of the account's option
mapping is applied by submitting `SET OPTION name=value` through `execute`,
and connect succeeds only if every such statement reports exactly one
affected row: when all pass, connect returns true and the log shows the
query call for every option; when some option fails the check, the session
is torn down (handle cleared) and connect returns false. -/
theorem connect_session_options (fuel : Nat) (env : Env) (acct : Account)
    (st : ConnState) (hnc : connected env st = false)
    (hinit : env.init_ok = true) (hssl : acct.ssl_key = "")
    (hcn : env.connect_ok = true) (hlive : env.stat_live = true)
    (hac : st.m_auto_commit = acct.auto_commit) (hschema : acct.schema = "") :
    ∃ r, connect (fuel + 1) env acct st = some r ∧
      (acct.options.all (optPass env) = true →
         r.val = true ∧ ∀ p ∈ acct.options, Event.callRealQuery (optQ p) ∈ r.log) ∧
      (acct.options.all (optPass env) = false →
         r.val = false ∧ r.st.m_mysql = none) := by
  rw [connect_pos_nf fuel env acct st hlive hnc,
    connectBodyNF_optStep env acct st hinit hssl hcn hac hschema]
  refine ⟨_, rfl, ?_, ?_⟩
  · intro hall
    obtain ⟨hv, _, hlog⟩ := optsNF_pass env acct.options
      { st with m_mysql := some HandleState.established } hall
    refine ⟨hv, ?_⟩
    intro p hp
    simp only [List.mem_append]
    exact Or.inr (Or.inr (hlog p hp))
  · intro hall
    obtain ⟨hv, hmy⟩ := optsNF_fail env acct.options
      { st with m_mysql := some HandleState.established } hall
    exact ⟨hv, hmy⟩

/-- Witness for `connect_session_options`: one passing option. -/
theorem connect_session_options_witness :
    ∃ r, connect 1 env0 acctOpt initConn = some r ∧ r.val = true ∧
      Event.callRealQuery (optQ ("a", "b")) ∈ r.log := by
  obtain ⟨r, hr, hpass, _⟩ :=
    connect_session_options 0 env0 acctOpt initConn (by decide) rfl rfl rfl rfl
      (by decide) rfl
  obtain ⟨hv, hlog⟩ := hpass (by decide)
  exact ⟨r, hr, hv, hlog ("a", "b") (by decide)⟩

/-- Counterexample to C1 as stated: with TLS requested and the TLS
configuration call failing, `connect` returns false but the freshly
allocated session handle is NOT torn down — `m_mysql` still holds it
(`MYSQL_ERROR_RETURN_FALSE` does not call `disconnect()`), so a
partially-configured session handle does remain. -/
theorem connect_teardown_cex :
    ∃ r, connect 1 envSslFail acctSsl initConn = some r ∧ r.val = false ∧
      r.st.m_mysql ≠ none := by
  refine ⟨⟨false, { initConn with m_mysql := some HandleState.raw },
          [Event.callInit, Event.callSslSet, Event.errReported]⟩, ?_, rfl, by simp⟩
  decide

/-- C1 (amended): failing steps during `connect` all make it return false
with `connected()` false afterward, but only the post-handshake steps tear
the handle down.  (i) failed allocation leaves the handle member null;
(ii) a TLS failure and (iii) a handshake failure return false with
`connected()` false, yet the freshly allocated raw handle stays stored in
the Connection (not torn down); failures of (iv) autocommit application,
(v) default-schema selection and (vi) session-option application disconnect:
the handle is cleared and `connected()` is false. -/
theorem connect_failure_states (fuel : Nat) (env : Env) (acct : Account)
    (st : ConnState) (hnc : connected env st = false) :
    (env.init_ok = false →
       connect (fuel + 1) env acct st =
         some ⟨false, { st with m_mysql := none },
               statProbeLog st ++ [Event.callInit, Event.errReported]⟩) ∧
    (env.init_ok = true → acct.ssl_key ≠ "" → env.ssl_ok = false →
       ∃ r, connect (fuel + 1) env acct st = some r ∧ r.val = false ∧
         r.st.m_mysql = some HandleState.raw ∧ connected env r.st = false) ∧
    (env.init_ok = true → (acct.ssl_key = "" ∨ env.ssl_ok = true) →
     env.connect_ok = false →
       ∃ r, connect (fuel + 1) env acct st = some r ∧ r.val = false ∧
         r.st.m_mysql = some HandleState.raw ∧ connected env r.st = false) ∧
    (env.init_ok = true → (acct.ssl_key = "" ∨ env.ssl_ok = true) →
     env.connect_ok = true → env.stat_live = true →
     st.m_auto_commit ≠ acct.auto_commit →
     env.autocommit_ok acct.auto_commit = false →
       ∃ r, connect (fuel + 1) env acct st = some r ∧ r.val = false ∧
         r.st.m_mysql = none ∧ connected env r.st = false) ∧
    (env.init_ok = true → (acct.ssl_key = "" ∨ env.ssl_ok = true) →
     env.connect_ok = true → env.stat_live = true →
     st.m_auto_commit = acct.auto_commit → acct.schema ≠ "" →
     env.select_db_ok acct.schema = false →
       ∃ r, connect (fuel + 1) env acct st = some r ∧ r.val = false ∧
         r.st.m_mysql = none ∧ connected env r.st = false) ∧
    (env.init_ok = true → acct.ssl_key = "" → env.connect_ok = true →
     env.stat_live = true → st.m_auto_commit = acct.auto_commit →
     acct.schema = "" → acct.options.all (optPass env) = false →
       ∃ r, connect (fuel + 1) env acct st = some r ∧ r.val = false ∧
         r.st.m_mysql = none ∧ connected env r.st = false) := by
  refine ⟨?_, ?_, ?_, ?_, ?_, ?_⟩
  · intro h
    rw [connect, connectBody_initFail (connect fuel env acct) env acct st h]
    simp [hnc]
  · intro h1 h2 h3
    rw [connect, connectBody_sslFail (connect fuel env acct) env acct st h1 h2 h3]
    simp only [hnc, Bool.false_eq_true, if_false]
    exact ⟨_, rfl, rfl, rfl, connected_of_raw env _ rfl⟩
  · intro h1 h2 h3
    rw [connect, connectBody_handshakeFail (connect fuel env acct) env acct st h1 h2 h3]
    simp only [hnc, Bool.false_eq_true, if_false]
    exact ⟨_, rfl, rfl, rfl, connected_of_raw env _ rfl⟩
  · intro h1 h2 h3 hlive hA hak
    rw [connect_pos_nf fuel env acct st hlive hnc]
    obtain ⟨hv, hst⟩ := connectBodyNF_acFail env acct st h1 h2 h3 hA hak
    refine ⟨_, rfl, hv, ?_, ?_⟩
    · rw [hst]
    · rw [hst]; exact connected_of_none env _ rfl
  · intro h1 h2 h3 hlive hac hsch hdb
    rw [connect_pos_nf fuel env acct st hlive hnc]
    obtain ⟨hv, hst⟩ := connectBodyNF_schemaFail env acct st h1 h2 h3 hac hsch hdb
    refine ⟨_, rfl, hv, ?_, ?_⟩
    · rw [hst]
    · rw [hst]; exact connected_of_none env _ rfl
  · intro h1 h2 h3 hlive hac hsch hopts
    rw [connect_pos_nf fuel env acct st hlive hnc,
      connectBodyNF_optStep env acct st h1 h2 h3 hac hsch]
    obtain ⟨hv, hmy⟩ := optsNF_fail env acct.options
      { st with m_mysql := some HandleState.established } hopts
    exact ⟨_, rfl, hv, hmy, connected_of_none env _ hmy⟩

/-- Witness for `connect_failure_states`: the TLS-failure case at concrete
inputs. -/
theorem connect_failure_states_witness :
    ∃ r, connect 1 envSslFail acctSsl initConn = some r ∧ r.val = false ∧
      r.st.m_mysql = some HandleState.raw ∧ connected envSslFail r.st = false :=
  (connect_failure_states 0 envSslFail acctSsl initConn (by decide)).2.1
    rfl (by decide) rfl

end Mariadb
